import Mathlib

/-!
Verification of the build-orchestration core (`Compiler`) of this repository,
shallowly embedded from `src/webpack-cli/bin/utils/prompt-command.js`
(the `Compiler` class, lines 565-1181, and its `SizeOnlySource` companion).

External collaborators (the output file system, the `tapable` hook buses, the
`neo-async` limiter, the JSON parser) are represented by explicit environment
parameters carrying the outcome each collaborator reports back through its
callback; the control flow that reacts to those outcomes is translated
line-by-line from the source.
-/

/-- Error values surfaced through the callbacks of the source. -/
inductive WebpackErr
  | concurrentCompilation
  | parseError (msg : String)
  | writeFailed
  | hookFailure (tag : Nat)
  | fsFailure (tag : Nat)
deriving DecidableEq, Repr

/-- Association-list lookup, modelling `Map.prototype.get` / property access. -/
def lookupKV {α β : Type} [DecidableEq α] : List (α × β) → α → Option β
  | [], _ => none
  | (k0, v) :: rest, k => if k0 = k then some v else lookupKV rest k

/-- Association-list update, modelling `Map.prototype.set` / property assignment. -/
def setKV {α β : Type} [DecidableEq α] : List (α × β) → α → β → List (α × β)
  | [], k, v => [(k, v)]
  | (k0, v0) :: rest, k, v => if k0 = k then (k, v) :: rest else (k0, v0) :: setKV rest k v

/-- Writing back the value already stored under a key leaves the map unchanged. -/
theorem setKV_lookup_self {α β : Type} [DecidableEq α] (l : List (α × β)) (k : α) (v : β)
    (h : lookupKV l k = some v) : setKV l k v = l := by
  induction l with
  | nil => simp [lookupKV] at h
  | cons hd tl ih =>
    obtain ⟨k0, v0⟩ := hd
    by_cases hk : k0 = k
    · subst hk
      simp [lookupKV] at h
      simp [setKV, h]
    · simp [lookupKV, hk] at h
      simp [setKV, hk, ih h]

/-- Compiler state: the fields set up in the constructor (lines 642-721) that the
re-entrancy guard of `run` (lines 735-750) and `watch` (lines 724-732) may touch.
Timestamps are maps from path to number, `removedFiles` a set of paths, `records`
the nested record store (name to array of record-slot handles). -/
structure CompilerSt where
  running : Bool
  watchMode : Bool
  fileTimestamps : List (String × Nat)
  contextTimestamps : List (String × Nat)
  removedFiles : List String
  records : List (String × List Nat)
deriving DecidableEq, Repr

/-- Entry of `Compiler.run` (lines 735-750): when `running` is already set the
callback receives a `ConcurrentCompilationError` and the method returns without
touching any field; otherwise `running` is set and the pipeline proceeds. -/
def runEntry (c : CompilerSt) : Option WebpackErr × CompilerSt :=
  if c.running then (some WebpackErr.concurrentCompilation, c)
  else (none, { c with running := true })

/-- Entry of `Compiler.watch` (lines 724-732): same guard; on the non-running
path it sets `running` and `watchMode` and resets the three incremental maps. -/
def watchEntry (c : CompilerSt) : Option WebpackErr × CompilerSt :=
  if c.running then (some WebpackErr.concurrentCompilation, c)
  else (none, { c with
    running := true,
    watchMode := true,
    fileTimestamps := [],
    contextTimestamps := [],
    removedFiles := [] })

/-- C1: for every Compiler whose `running` flag is true, a second call to `run`
(or `watch`) reports a `ConcurrentCompilationError` to the second call's callback
immediately and returns the state entirely unchanged (in particular
`fileTimestamps`, `contextTimestamps`, `removedFiles` and `records` are
untouched), so any continuation of the first in-flight call computes the same
result as if the second call had never happened. -/
theorem claim_C1_reentrancy (c : CompilerSt) (h : c.running = true) :
    runEntry c = (some WebpackErr.concurrentCompilation, c) ∧
    watchEntry c = (some WebpackErr.concurrentCompilation, c) ∧
    ∀ (α : Type) (g : CompilerSt → α), g (runEntry c).2 = g c ∧ g (watchEntry c).2 = g c := by
  refine ⟨?_, ?_, ?_⟩
  · simp [runEntry, h]
  · simp [watchEntry, h]
  · intro α g
    constructor <;> simp [runEntry, watchEntry, h]

/-- C1 witness: a concrete busy compiler state. -/
theorem claim_C1_reentrancy_witness :
    runEntry ⟨true, false, [("a.js", 3)], [], ["b.js"], [("sub", [0])]⟩ =
      (some WebpackErr.concurrentCompilation, ⟨true, false, [("a.js", 3)], [], ["b.js"], [("sub", [0])]⟩) ∧
    watchEntry ⟨true, false, [("a.js", 3)], [], ["b.js"], [("sub", [0])]⟩ =
      (some WebpackErr.concurrentCompilation, ⟨true, false, [("a.js", 3)], [], ["b.js"], [("sub", [0])]⟩) :=
  ⟨(claim_C1_reentrancy _ rfl).1, (claim_C1_reentrancy _ rfl).2.1⟩

/-- Stage events of `Compiler.emitAssets` (lines 844-967), in the order the
source reaches them: the `emit` hook, the `mkdirp` of the output directory, the
settling of the bounded-concurrency write phase, and the `afterEmit` hook. -/
inductive EmitFlowEv
  | emitHook
  | mkdirpOut
  | writePhase
  | afterEmitHook
deriving DecidableEq, Repr

/-- Outcomes the collaborators of `emitAssets` report back: the `emit` hook's
callback (line 960), the output-directory `mkdirp` (line 965), the final
callback of `asyncLib.forEachLimit` carrying the first write error if any
(line 948), and the `afterEmit` hook's callback (line 951). -/
structure EmitFlowEnv where
  emitErr : Option WebpackErr
  mkdirpErr : Option WebpackErr
  writesErr : Option WebpackErr
  afterEmitErr : Option WebpackErr
deriving DecidableEq, Repr

/-- Control-flow skeleton of `Compiler.emitAssets` (lines 844-967): fire `emit`;
on success `mkdirp` the output path and run `emitFiles`; when the write phase
settles, `if (err) return callback(err)` (line 949) and only otherwise fire
`afterEmit` and then return. Produces the final callback value and the list of
stages reached. -/
def emitAssetsFlow (env : EmitFlowEnv) : Option WebpackErr × List EmitFlowEv :=
  match env.emitErr with
  | some e => (some e, [EmitFlowEv.emitHook])
  | none =>
    match env.mkdirpErr with
    | some e => (some e, [EmitFlowEv.emitHook, EmitFlowEv.mkdirpOut])
    | none =>
      match env.writesErr with
      | some e => (some e, [EmitFlowEv.emitHook, EmitFlowEv.mkdirpOut, EmitFlowEv.writePhase])
      | none =>
        match env.afterEmitErr with
        | some e =>
            (some e, [EmitFlowEv.emitHook, EmitFlowEv.mkdirpOut, EmitFlowEv.writePhase,
              EmitFlowEv.afterEmitHook])
        | none =>
            (none, [EmitFlowEv.emitHook, EmitFlowEv.mkdirpOut, EmitFlowEv.writePhase,
              EmitFlowEv.afterEmitHook])

/-- C2 counterexample: when an asset write fails, `emitAssets` propagates the
failure to its callback immediately and the `afterEmit` hook is never fired,
contradicting the claim that `afterEmit` fires even when a write failed. -/
theorem claim_C2_counterexample :
    emitAssetsFlow ⟨none, none, some WebpackErr.writeFailed, none⟩ =
      (some WebpackErr.writeFailed,
        [EmitFlowEv.emitHook, EmitFlowEv.mkdirpOut, EmitFlowEv.writePhase]) ∧
    EmitFlowEv.afterEmitHook ∉ (emitAssetsFlow ⟨none, none, some WebpackErr.writeFailed, none⟩).2 := by
  decide

/-- C2 amended: after the asset writes settle, `afterEmit` fires only when every
write succeeded; a write failure propagates to the emitAssets callback directly
without firing `afterEmit`, while on an all-successful write phase `afterEmit`
fires before control returns and its own outcome is what propagates. -/
theorem claim_C2_amended (env : EmitFlowEnv)
    (h1 : env.emitErr = none) (h2 : env.mkdirpErr = none) :
    (∀ e, env.writesErr = some e →
      emitAssetsFlow env =
        (some e, [EmitFlowEv.emitHook, EmitFlowEv.mkdirpOut, EmitFlowEv.writePhase]) ∧
      EmitFlowEv.afterEmitHook ∉ (emitAssetsFlow env).2) ∧
    (env.writesErr = none →
      (emitAssetsFlow env).1 = env.afterEmitErr ∧
      (emitAssetsFlow env).2 =
        [EmitFlowEv.emitHook, EmitFlowEv.mkdirpOut, EmitFlowEv.writePhase,
          EmitFlowEv.afterEmitHook]) := by
  obtain ⟨e1, e2, e3, e4⟩ := env
  simp only at h1 h2
  subst h1 h2
  constructor
  · intro e he
    simp only at he
    subst he
    simp [emitAssetsFlow]
  · intro he
    simp only at he
    subst he
    cases e4 <;> simp [emitAssetsFlow]

/-- C2 amended witness: concrete all-successful environment. -/
theorem claim_C2_amended_witness :
    (emitAssetsFlow ⟨none, none, none, none⟩).1 = none ∧
    (emitAssetsFlow ⟨none, none, none, none⟩).2 =
      [EmitFlowEv.emitHook, EmitFlowEv.mkdirpOut, EmitFlowEv.writePhase,
        EmitFlowEv.afterEmitHook] :=
  (claim_C2_amended ⟨none, none, none, none⟩ rfl rfl).2 rfl

/-- Collaborator outcomes consumed by `Compiler.readRecords` (lines 993-1018):
whether `inputFileSystem.stat` reports an error, what `readFile` yields, and the
behavior of the external JSON parser (`json-parse-better-errors`), which either
returns a record structure or raises a message. -/
structure ReadRecordsEnv where
  statErr : Bool
  readFileResult : Except WebpackErr String
  parse : String → Except String (List (String × List Nat))

/-- Model of `Compiler.readRecords` (lines 993-1018): with no
`recordsInputPath` it resets `records` to empty and succeeds; when `stat` on the
path fails it succeeds leaving `records` untouched; when the file reads but the
parser raises `m`, it fails with `"Cannot parse records: " ++ m`; otherwise it
stores the parse result. Returns the callback error and the new `records`. -/
def readRecordsModel (recordsInputPath : Option String) (env : ReadRecordsEnv)
    (records : List (String × List Nat)) :
    Option WebpackErr × List (String × List Nat) :=
  match recordsInputPath with
  | none => (none, [])
  | some _ =>
    if env.statErr then (none, records)
    else
      match env.readFileResult with
      | Except.error e => (some e, records)
      | Except.ok content =>
        match env.parse content with
        | Except.error m => (some (WebpackErr.parseError ("Cannot parse records: " ++ m)), records)
        | Except.ok r => (none, r)

/-- C5: `readRecords` with no configured input path completes with no error and
an empty record set; with a path whose file is missing (stat fails) it completes
with no error and, on a first build (records still empty from the constructor),
an empty record set; with a file that reads but fails to parse, it fails with a
fatal parse error. -/
theorem claim_C5_readRecords :
    (∀ env records, readRecordsModel none env records = (none, [])) ∧
    (∀ p env, env.statErr = true → readRecordsModel (some p) env [] = (none, [])) ∧
    (∀ p env c m, env.statErr = false → env.readFileResult = Except.ok c →
      env.parse c = Except.error m →
      readRecordsModel (some p) env [] =
        (some (WebpackErr.parseError ("Cannot parse records: " ++ m)), [])) := by
  refine ⟨fun env records => rfl, fun p env h => by simp [readRecordsModel, h],
    fun p env c m h1 h2 h3 => by simp [readRecordsModel, h1, h2, h3]⟩

/-- C5 witness: concrete environments for the three cases. -/
theorem claim_C5_readRecords_witness :
    readRecordsModel none ⟨false, Except.ok "", fun _ => Except.ok []⟩ [("k", [1])] = (none, []) ∧
    readRecordsModel (some "recs.json") ⟨true, Except.ok "", fun _ => Except.ok []⟩ [] = (none, []) ∧
    readRecordsModel (some "recs.json")
        ⟨false, Except.ok "not json", fun _ => Except.error "bad"⟩ [] =
      (some (WebpackErr.parseError "Cannot parse records: bad"), []) :=
  ⟨claim_C5_readRecords.1 _ _, claim_C5_readRecords.2.1 _ _ rfl,
    claim_C5_readRecords.2.2 _ _ "not json" "bad" rfl rfl rfl⟩

/-- Events of one `Compiler.run` invocation, in the order `run` (lines 735-819)
reaches them: the `beforeRun` and `run` hooks, the `readRecords` call, each
`this.compile(onCompiled)` cycle, the `shouldEmit` bail query, the `emitAssets`
call, the `needAdditionalPass` bail query, the `done` and `additionalPass`
hooks, the `emitRecords` call, and the `failed` hook fired by `finalCallback`
on an error. -/
inductive RunEv
  | beforeRun
  | runHook
  | readRecords
  | compileCycle
  | shouldEmitCheck
  | emitAssetsCall
  | needAPCheck
  | doneHook
  | additionalPassHook
  | emitRecordsCall
  | failedHook
deriving DecidableEq, Repr

/-- Collaborator outcomes of one compile cycle inside `run`: the result handed
to `onCompiled` by `compile` (line 753), whether `shouldEmit.call` returned the
explicit `false` (line 756), the outcome of `emitAssets` (line 769), the result
of the `needAdditionalPass` bail query (line 772), and the callbacks of the
`done`, `additionalPass` and `emitRecords` steps. -/
structure PassEnv where
  compileErr : Option WebpackErr
  shouldEmitFalse : Bool
  emitAssetsErr : Option WebpackErr
  needAP : Bool
  doneErr : Option WebpackErr
  additionalPassErr : Option WebpackErr
  emitRecordsErr : Option WebpackErr
deriving DecidableEq, Repr

/-- Collaborator outcomes of the pre-compile stages of `run` (lines 806-818)
together with the behaviors of the successive compile cycles. -/
structure RunEnv where
  beforeRunErr : Option WebpackErr
  runErr : Option WebpackErr
  readRecordsErr : Option WebpackErr
  passes : List PassEnv
deriving Repr

/-- Result delivered to `run`'s final callback: success with stats, an error, or
the model's pass budget ran out (the source loop itself is unbounded). -/
inductive RunOutcome
  | ok
  | err (e : WebpackErr)
  | fuelOut
deriving DecidableEq, Repr

/-- The `onCompiled` protocol of `Compiler.run` (lines 753-804), one recursion
step per compile cycle: on compile success query `shouldEmit`; unless it is the
explicit `false`, call `emitAssets`; then query `needAdditionalPass` — if truthy
fire `done` then `additionalPass` then re-invoke `compile` and recurse,
otherwise `emitRecords` then `done` then succeed. Each cycle's collaborator
outcomes come from the head of the pass list. -/
def onCompiledModel : List PassEnv → List RunEv → RunOutcome × List RunEv
  | [], tr => (RunOutcome.fuelOut, tr)
  | p :: rest, tr =>
    let tr := tr ++ [RunEv.compileCycle]
    match p.compileErr with
    | some e => (RunOutcome.err e, tr)
    | none =>
      let tr := tr ++ [RunEv.shouldEmitCheck]
      if p.shouldEmitFalse then
        let tr := tr ++ [RunEv.doneHook]
        match p.doneErr with
        | some e => (RunOutcome.err e, tr)
        | none => (RunOutcome.ok, tr)
      else
        let tr := tr ++ [RunEv.emitAssetsCall]
        match p.emitAssetsErr with
        | some e => (RunOutcome.err e, tr)
        | none =>
          let tr := tr ++ [RunEv.needAPCheck]
          if p.needAP then
            let tr := tr ++ [RunEv.doneHook]
            match p.doneErr with
            | some e => (RunOutcome.err e, tr)
            | none =>
              let tr := tr ++ [RunEv.additionalPassHook]
              match p.additionalPassErr with
              | some e => (RunOutcome.err e, tr)
              | none => onCompiledModel rest tr
          else
            let tr := tr ++ [RunEv.emitRecordsCall]
            match p.emitRecordsErr with
            | some e => (RunOutcome.err e, tr)
            | none =>
              let tr := tr ++ [RunEv.doneHook]
              match p.doneErr with
              | some e => (RunOutcome.err e, tr)
              | none => (RunOutcome.ok, tr)

/-- The pre-compile stages of `Compiler.run` (lines 806-818): `beforeRun`, the
`run` hook, `readRecords`, then the first compile cycle; each failure
short-circuits to `finalCallback`. -/
def runModelCore (env : RunEnv) : RunOutcome × List RunEv :=
  match env.beforeRunErr with
  | some e => (RunOutcome.err e, [RunEv.beforeRun])
  | none =>
    match env.runErr with
    | some e => (RunOutcome.err e, [RunEv.beforeRun, RunEv.runHook])
    | none =>
      match env.readRecordsErr with
      | some e => (RunOutcome.err e, [RunEv.beforeRun, RunEv.runHook, RunEv.readRecords])
      | none => onCompiledModel env.passes [RunEv.beforeRun, RunEv.runHook, RunEv.readRecords]

/-- Full `Compiler.run` model: `finalCallback` (lines 739-746) fires the
`failed` sync hook when it receives an error, then delivers the result. -/
def runModel (env : RunEnv) : RunOutcome × List RunEv :=
  match runModelCore env with
  | (RunOutcome.err e, tr) => (RunOutcome.err e, tr ++ [RunEv.failedHook])
  | (o, tr) => (o, tr)

/-- Occurrence count of one event in a trace. -/
def countEv (e : RunEv) (l : List RunEv) : Nat :=
  (l.filter (fun x => x = e)).length

/-- C3: in a run where every stage succeeds and the `needAdditionalPass` bail
query is truthy on the first pass only, `run` fires `done` for the first pass,
then `additionalPass`, then re-invokes `compile`; in total exactly two compile
cycles run, `done` fires exactly twice, `additionalPass` exactly once, and
records are written exactly once — on the final pass only, after which the run
succeeds. The full event order is pinned by the trace equality. -/
theorem claim_C3_additionalPass (env : RunEnv)
    (h0 : env.beforeRunErr = none) (h1 : env.runErr = none) (h2 : env.readRecordsErr = none)
    (hp : env.passes = [⟨none, false, none, true, none, none, none⟩,
                        ⟨none, false, none, false, none, none, none⟩]) :
    runModel env = (RunOutcome.ok,
      [RunEv.beforeRun, RunEv.runHook, RunEv.readRecords,
       RunEv.compileCycle, RunEv.shouldEmitCheck, RunEv.emitAssetsCall, RunEv.needAPCheck,
       RunEv.doneHook, RunEv.additionalPassHook,
       RunEv.compileCycle, RunEv.shouldEmitCheck, RunEv.emitAssetsCall, RunEv.needAPCheck,
       RunEv.emitRecordsCall, RunEv.doneHook]) ∧
    countEv RunEv.compileCycle (runModel env).2 = 2 ∧
    countEv RunEv.doneHook (runModel env).2 = 2 ∧
    countEv RunEv.additionalPassHook (runModel env).2 = 1 ∧
    countEv RunEv.emitRecordsCall (runModel env).2 = 1 := by
  obtain ⟨b, r, rr, ps⟩ := env
  simp only at h0 h1 h2 hp
  subst h0 h1 h2 hp
  decide

/-- C3 witness: the concrete two-pass environment. -/
theorem claim_C3_additionalPass_witness :
    runModel ⟨none, none, none,
        [⟨none, false, none, true, none, none, none⟩,
         ⟨none, false, none, false, none, none, none⟩]⟩ = (RunOutcome.ok,
      [RunEv.beforeRun, RunEv.runHook, RunEv.readRecords,
       RunEv.compileCycle, RunEv.shouldEmitCheck, RunEv.emitAssetsCall, RunEv.needAPCheck,
       RunEv.doneHook, RunEv.additionalPassHook,
       RunEv.compileCycle, RunEv.shouldEmitCheck, RunEv.emitAssetsCall, RunEv.needAPCheck,
       RunEv.emitRecordsCall, RunEv.doneHook]) :=
  (claim_C3_additionalPass _ rfl rfl rfl rfl).1

/-- The hook names of the `Compiler` constructor's hook object (lines 568-624). -/
inductive HookName
  | done
  | additionalPass
  | beforeRun
  | run
  | shouldEmit
  | emit
  | afterEmit
  | thisCompilation
  | compilation
  | normalModuleFactory
  | contextModuleFactory
  | beforeCompile
  | compile
  | make
  | afterCompile
  | watchRun
  | failed
  | invalid
  | watchClose
  | environment
  | afterEnvironment
  | afterPlugins
  | afterResolvers
  | entryOption
deriving DecidableEq, Repr

/-- The excluded hook list of `createChildCompiler` (line 1028). -/
def excludedChildHooks : List HookName :=
  [HookName.make, HookName.compile, HookName.emit, HookName.afterEmit,
   HookName.invalid, HookName.done, HookName.thisCompilation]

/-- The tap-copy loop of `createChildCompiler` (lines 1027-1033): for each hook
name not in the excluded list, the child's tap list is overwritten with a copy
(`slice()`) of the parent's; excluded hooks keep the taps the child acquired
from its freshly applied plugins. A tap is represented by its registration
name, the lists ordered by registration. -/
def copyTaps (parentHooks childHooks : HookName → List String) : HookName → List String :=
  fun n => if n ∈ excludedChildHooks then childHooks n else parentHooks n

/-- C6: `createChildCompiler` copies every parent hook's tap list verbatim onto
the child except for `make`, `compile`, `emit`, `afterEmit`, `invalid`, `done`
and `thisCompilation`, whose parent taps are not copied (the child keeps its
own); a copied hook's tap list equals the parent's, so its order is the
parent's registration order. -/
theorem claim_C6_childHooks (parentHooks childHooks : HookName → List String) (n : HookName) :
    (n ∉ excludedChildHooks → copyTaps parentHooks childHooks n = parentHooks n) ∧
    (n ∈ excludedChildHooks → copyTaps parentHooks childHooks n = childHooks n) := by
  constructor <;> intro h <;> simp [copyTaps, h]

/-- C6 witness: a non-excluded hook is copied from the parent in order, an
excluded hook keeps the child's own taps. -/
theorem claim_C6_childHooks_witness :
    copyTaps (fun _ => ["A", "B", "C"]) (fun _ => ["P"]) HookName.beforeRun = ["A", "B", "C"] ∧
    copyTaps (fun _ => ["A", "B", "C"]) (fun _ => ["P"]) HookName.make = ["P"] :=
  ⟨(claim_C6_childHooks _ _ _).1 (by decide), (claim_C6_childHooks _ _ _).2 (by decide)⟩

/-- Looking a key up right after writing it yields the written value. -/
theorem lookupKV_setKV_self {α β : Type} [DecidableEq α] (l : List (α × β)) (k : α) (v : β) :
    lookupKV (setKV l k v) k = some v := by
  induction l with
  | nil => simp [setKV, lookupKV]
  | cons hd tl ih =>
    obtain ⟨k0, v0⟩ := hd
    by_cases hk : k0 = k
    · simp [setKV, hk, lookupKV]
    · simp [setKV, hk, lookupKV, ih]

/-- Record-store state seen by `createChildCompiler`: the parent's `records`
(relative child name to array of record-slot handles) plus an allocator for
fresh slot handles, standing for the identity of the `{}` objects the source
creates. -/
structure RecordsSt where
  records : List (String × List Nat)
  nextSlot : Nat
deriving DecidableEq, Repr

/-- The record-slot logic of `createChildCompiler` (lines 1042-1050): ensure
`records[relativeName]` is an array; if `records[relativeName][compilerIndex]`
holds a (truthy) slot, the child reuses it; otherwise a fresh slot object is
created and `push`ed onto the array — landing at the array's current length,
whatever `compilerIndex` is. Returns the child's slot handle and the new
state. -/
def childRecordsSlot (relativeName : String) (compilerIndex : Nat) (st : RecordsSt) :
    Nat × RecordsSt :=
  let arr := (lookupKV st.records relativeName).getD []
  match arr.get? compilerIndex with
  | some slot => (slot, { st with records := setKV st.records relativeName arr })
  | none =>
    (st.nextSlot,
      { st with
        records := setKV st.records relativeName (arr ++ [st.nextSlot]),
        nextSlot := st.nextSlot + 1 })

/-- C7 counterexample: on a fresh record store, a first call with
`(name = "sub", index = 1)` stores the new slot at position 0 of
`records["sub"]` — not at index 1 — and a second call with the very same
`(name, index)` pair therefore allocates a different slot (handle 1 instead of
reusing handle 0), refuting both the stated storage location and, for
non-consecutive indices, the continuity of the slot. -/
theorem claim_C7_counterexample :
    (childRecordsSlot "sub" 1 ⟨[], 0⟩).1 = 0 ∧
    lookupKV (childRecordsSlot "sub" 1 ⟨[], 0⟩).2.records "sub" = some [0] ∧
    ((lookupKV (childRecordsSlot "sub" 1 ⟨[], 0⟩).2.records "sub").getD []).get? 1 = none ∧
    (childRecordsSlot "sub" 1 (childRecordsSlot "sub" 1 ⟨[], 0⟩).2).1 = 1 := by
  decide

/-- C7 amended: a newly created child record slot is `push`ed onto
`records[relativeName]`, landing at the array's current length — which equals
`compilerIndex` only when slots are created with consecutive indices 0, 1, …;
when `records[relativeName][compilerIndex]` already holds a slot, that same
slot is reused and the record store is left unchanged, so with consecutive
indices the same `(name, index)` pair in a later parent build reuses the same
slot while a different index in the same build receives an independent slot. -/
theorem claim_C7_amended (st : RecordsSt) (name : String) (idx : Nat) :
    (∀ arr slot, lookupKV st.records name = some arr → arr.get? idx = some slot →
      childRecordsSlot name idx st = (slot, st)) ∧
    (((lookupKV st.records name).getD []).get? idx = none →
      (childRecordsSlot name idx st).1 = st.nextSlot ∧
      lookupKV (childRecordsSlot name idx st).2.records name =
        some (((lookupKV st.records name).getD []) ++ [st.nextSlot]) ∧
      (((lookupKV st.records name).getD []) ++ [st.nextSlot]).get?
          ((lookupKV st.records name).getD []).length = some st.nextSlot) ∧
    ((childRecordsSlot "sub" 0 ⟨[], 0⟩).1 = 0 ∧
      (childRecordsSlot "sub" 1 (childRecordsSlot "sub" 0 ⟨[], 0⟩).2).1 = 1 ∧
      (childRecordsSlot "sub" 0
        (childRecordsSlot "sub" 1 (childRecordsSlot "sub" 0 ⟨[], 0⟩).2).2).1 = 0) := by
  refine ⟨?_, ?_, by decide⟩
  · intro arr slot harr hslot
    have hset := setKV_lookup_self st.records name arr harr
    rw [List.get?_eq_getElem?] at hslot
    simp [childRecordsSlot, harr, hslot, hset]
  · intro hnone
    rw [List.get?_eq_getElem?] at hnone
    refine ⟨?_, ?_, ?_⟩
    · simp [childRecordsSlot, hnone]
    · simp [childRecordsSlot, hnone, lookupKV_setKV_self]
    · simp

/-- C7 amended witness: the reuse branch applied at a concrete store whose
slot 0 for "sub" already exists. -/
theorem claim_C7_amended_witness :
    childRecordsSlot "sub" 0 ⟨[("sub", [7])], 8⟩ = (7, ⟨[("sub", [7])], 8⟩) ∧
    (childRecordsSlot "sub" 1 ⟨[("sub", [7])], 8⟩).1 = 8 :=
  ⟨(claim_C7_amended ⟨[("sub", [7])], 8⟩ "sub" 0).1 [7] 7 rfl rfl,
    ((claim_C7_amended ⟨[("sub", [7])], 8⟩ "sub" 1).2.1 rfl).1⟩

/-- The `SizeOnlySource` replacement class (lines 1140-1181): it retains only a
byte length; every content accessor raises the "no longer available" error. -/
structure SizeOnlySource where
  bytesLen : Nat
deriving DecidableEq, Repr

/-- The error every content accessor of `SizeOnlySource` raises (line 1147). -/
inductive SourceErr
  | contentUnavailable
deriving DecidableEq, Repr

/-- The only supported accessor: `size()` returns the stored length (line 1150). -/
def SizeOnlySource.size (s : SizeOnlySource) : Nat := s.bytesLen

/-- The `source()` accessor throws (lines 1158-1160). -/
def SizeOnlySource.source (_ : SizeOnlySource) : Except SourceErr (List Nat) :=
  Except.error SourceErr.contentUnavailable

/-- The `node()` accessor throws (lines 1162-1164). -/
def SizeOnlySource.node (_ : SizeOnlySource) : Except SourceErr Unit :=
  Except.error SourceErr.contentUnavailable

/-- The `listMap()` accessor throws (lines 1166-1168). -/
def SizeOnlySource.listMap (_ : SizeOnlySource) : Except SourceErr Unit :=
  Except.error SourceErr.contentUnavailable

/-- The `map()` accessor throws (lines 1170-1172). -/
def SizeOnlySource.map (_ : SizeOnlySource) : Except SourceErr Unit :=
  Except.error SourceErr.contentUnavailable

/-- The `listNode()` accessor throws (lines 1174-1176). -/
def SizeOnlySource.listNode (_ : SizeOnlySource) : Except SourceErr Unit :=
  Except.error SourceErr.contentUnavailable

/-- The `updateHash()` accessor throws (lines 1178-1180). -/
def SizeOnlySource.updateHash (_ : SizeOnlySource) : Except SourceErr Unit :=
  Except.error SourceErr.contentUnavailable

/-- An emittable content object handed to `emitAssets`: `id` is its JavaScript
object identity (the key of the `WeakMap` source cache), `bytes` the byte
content its `buffer()`/`source()` accessor materializes. -/
structure JsSource where
  id : Nat
  bytes : List Nat
deriving DecidableEq, Repr

/-- A `compilation.assets` entry: the original content object, or the
size-only stand-in installed by a caching-mode write. -/
inductive AssetContent
  | fromSource (s : JsSource)
  | sizeOnly (s : SizeOnlySource)
deriving DecidableEq, Repr

/-- A `_assetEmittingSourceCache` entry (lines 871-876): the optional size-only
stand-in and the per-source map from target path to write generation. -/
structure CacheEntry where
  sizeOnlySource : Option SizeOnlySource
  writtenTo : List (String × Nat)
deriving DecidableEq, Repr

/-- Observable steps of a caching-mode `writeOut`, in program order: replacing
the asset-mapping entry with the stand-in (line 907), issuing the physical
`writeFile` (line 910), and bumping the two generation counters on write
success (lines 917-919). -/
inductive EmitAction
  | replaceAsset (file : String)
  | physWrite (targetPath : String)
  | bumpGeneration (targetPath : String)
deriving DecidableEq, Repr

/-- Joint state of one emission: `compilation.assets` and
`compilation.emittedAssets`, the compiler-level `_assetEmittingSourceCache`
(keyed by source identity) and `_assetEmittingWrittenFiles`, plus the log of
physical writes (targetPath, source id) and the ordered action trace. -/
structure EmitSt where
  assets : List (String × AssetContent)
  emittedAssets : List String
  sourceCache : List (Nat × CacheEntry)
  writtenFiles : List (String × Nat)
  writeLog : List (String × Nat)
  actions : List EmitAction
deriving DecidableEq, Repr

/-- The empty emission state: fresh compiler caches, no assets written. -/
def emitSt0 : EmitSt := ⟨[], [], [], [], [], []⟩

/-- Query-string stripping of the per-asset handler (lines 855-856): the target
file is the name up to the first `?`. -/
def stripQuery (file : String) : String :=
  String.mk (file.toList.takeWhile (fun c => c ≠ '?'))

/-- The collaborator `outputFileSystem.join` (line 862), path concatenation. -/
def fsJoin (base rel : String) : String := base ++ "/" ++ rel

/-- The write body of a caching-mode `writeOut` once the dedup check did not
fire (lines 890-921): materialize the bytes, install the size-only stand-in in
the source-cache entry and in `compilation.assets` (before the asynchronous
`writeFile` is issued), then write; on success record the file in
`emittedAssets` and set both generation counters to `targetFileGeneration + 1`
(or 1 on a first write); on failure report the error with no further
mutation. -/
def writeOutProceed (file targetPath : String) (source : JsSource)
    (targetFileGeneration : Option Nat) (entry0 : CacheEntry)
    (writeErr : Option WebpackErr) (st1 : EmitSt) : Option WebpackErr × EmitSt :=
  let content := source.bytes
  let sizeOnly : SizeOnlySource := ⟨content.length⟩
  let entry1 : CacheEntry := { entry0 with sizeOnlySource := some sizeOnly }
  let st2 : EmitSt := { st1 with
    sourceCache := setKV st1.sourceCache source.id entry1,
    assets := setKV st1.assets file (AssetContent.sizeOnly sizeOnly),
    actions := st1.actions ++ [EmitAction.replaceAsset file] }
  let st3 : EmitSt := { st2 with
    writeLog := st2.writeLog ++ [(targetPath, source.id)],
    actions := st2.actions ++ [EmitAction.physWrite targetPath] }
  match writeErr with
  | some e => (some e, st3)
  | none =>
    let newGeneration := match targetFileGeneration with
      | none => 1
      | some g => g + 1
    let entry2 : CacheEntry :=
      { entry1 with writtenTo := setKV entry1.writtenTo targetPath newGeneration }
    (none, { st3 with
      emittedAssets := st3.emittedAssets ++ [file],
      sourceCache := setKV st3.sourceCache source.id entry2,
      writtenFiles := setKV st3.writtenFiles targetPath newGeneration,
      actions := st3.actions ++ [EmitAction.bumpGeneration targetPath] })

/-- Caching-mode `writeOut` for one asset (lines 859-921, the
`futureEmitAssets` branch): strip the query string, resolve the target path,
fetch the recorded write generation of that path, get or create the source's
cache entry, and skip the write entirely when the cached entry shows the
current generation of that exact path was already written by this source;
otherwise proceed to the physical write. `writeErr` is the outcome the
`outputFileSystem.writeFile` collaborator reports. -/
def writeOutFuture (outputPath file : String) (source : JsSource)
    (writeErr : Option WebpackErr) (st : EmitSt) : Option WebpackErr × EmitSt :=
  let targetFile := stripQuery file
  let targetPath := fsJoin outputPath targetFile
  let targetFileGeneration := lookupKV st.writtenFiles targetPath
  let entry0 := (lookupKV st.sourceCache source.id).getD ⟨none, []⟩
  let st1 := { st with sourceCache := setKV st.sourceCache source.id entry0 }
  match targetFileGeneration with
  | some g =>
    if lookupKV entry0.writtenTo targetPath = some g then (none, st1)
    else writeOutProceed file targetPath source (some g) entry0 writeErr st1
  | none => writeOutProceed file targetPath source none entry0 writeErr st1

/-- C9: after a successful caching-mode write from a fresh emission state, the
asset mapping's entry for the filename is the size-only stand-in whose `size()`
is the written content's byte length, and whose accessors `source()`, `map()`,
`node()`, `listMap()`, `listNode()` and `updateHash()` all raise the
content-unavailable error instead of returning content. -/
theorem claim_C9_sizeOnlyStandIn (out f : String) (s : JsSource) :
    (writeOutFuture out f s none emitSt0).1 = none ∧
    lookupKV (writeOutFuture out f s none emitSt0).2.assets f =
      some (AssetContent.sizeOnly ⟨s.bytes.length⟩) ∧
    SizeOnlySource.size ⟨s.bytes.length⟩ = s.bytes.length ∧
    SizeOnlySource.source ⟨s.bytes.length⟩ = Except.error SourceErr.contentUnavailable ∧
    SizeOnlySource.map ⟨s.bytes.length⟩ = Except.error SourceErr.contentUnavailable ∧
    SizeOnlySource.node ⟨s.bytes.length⟩ = Except.error SourceErr.contentUnavailable ∧
    SizeOnlySource.listMap ⟨s.bytes.length⟩ = Except.error SourceErr.contentUnavailable ∧
    SizeOnlySource.listNode ⟨s.bytes.length⟩ = Except.error SourceErr.contentUnavailable ∧
    SizeOnlySource.updateHash ⟨s.bytes.length⟩ = Except.error SourceErr.contentUnavailable := by
  refine ⟨?_, ?_, rfl, rfl, rfl, rfl, rfl, rfl, rfl⟩ <;>
    simp [writeOutFuture, writeOutProceed, emitSt0, lookupKV, setKV]

/-- C10: in caching mode the asset-mapping entry is replaced by the size-only
stand-in before the asynchronous `writeFile` is issued, so when the write fails
the original content object is already gone from the asset mapping, while the
per-path and per-entry generation counters are only incremented after a write
succeeds (here: not at all). The action trace pins the order: replacement,
then the physical write, and no generation bump. -/
theorem claim_C10_replaceBeforeWrite (out f : String) (s : JsSource) (e : WebpackErr) :
    (writeOutFuture out f s (some e) emitSt0).1 = some e ∧
    lookupKV (writeOutFuture out f s (some e) emitSt0).2.assets f =
      some (AssetContent.sizeOnly ⟨s.bytes.length⟩) ∧
    (writeOutFuture out f s (some e) emitSt0).2.writtenFiles = [] ∧
    lookupKV (writeOutFuture out f s (some e) emitSt0).2.sourceCache s.id =
      some ⟨some ⟨s.bytes.length⟩, []⟩ ∧
    (writeOutFuture out f s (some e) emitSt0).2.actions =
      [EmitAction.replaceAsset f, EmitAction.physWrite (fsJoin out (stripQuery f))] := by
  refine ⟨?_, ?_, ?_, ?_, ?_⟩ <;>
    simp [writeOutFuture, writeOutProceed, emitSt0, lookupKV, setKV]

/-- C4: in caching mode, emitting the same content object to the same target
path a second time performs no second physical write — across both emissions
exactly one `writeFile` happened for that (source, path) pair — and the second
emission completes without error; emitting two distinct content objects to two
distinct target paths performs two physical writes. -/
theorem claim_C4_writeDedup (out f : String) (s : JsSource)
    (f1 f2 : String) (s1 s2 : JsSource) (hid : s1.id ≠ s2.id)
    (hpath : fsJoin out (stripQuery f1) ≠ fsJoin out (stripQuery f2)) :
    ((writeOutFuture out f s none emitSt0).2.writeLog =
        [(fsJoin out (stripQuery f), s.id)] ∧
      (writeOutFuture out f s none (writeOutFuture out f s none emitSt0).2).1 = none ∧
      (writeOutFuture out f s none (writeOutFuture out f s none emitSt0).2).2.writeLog =
        [(fsJoin out (stripQuery f), s.id)]) ∧
    (writeOutFuture out f2 s2 none (writeOutFuture out f1 s1 none emitSt0).2).2.writeLog =
      [(fsJoin out (stripQuery f1), s1.id), (fsJoin out (stripQuery f2), s2.id)] := by
  refine ⟨⟨?_, ?_, ?_⟩, ?_⟩ <;>
    simp [writeOutFuture, writeOutProceed, emitSt0, lookupKV, setKV, hid, hpath,
      Ne.symm hid, Ne.symm hpath]

/-- C4 witness: concrete sources and paths. -/
theorem claim_C4_writeDedup_witness :
    ((writeOutFuture "dist" "a.js" ⟨0, [1, 2]⟩ none emitSt0).2.writeLog =
        [(fsJoin "dist" (stripQuery "a.js"), 0)] ∧
      (writeOutFuture "dist" "a.js" ⟨0, [1, 2]⟩ none
          (writeOutFuture "dist" "a.js" ⟨0, [1, 2]⟩ none emitSt0).2).1 = none ∧
      (writeOutFuture "dist" "a.js" ⟨0, [1, 2]⟩ none
          (writeOutFuture "dist" "a.js" ⟨0, [1, 2]⟩ none emitSt0).2).2.writeLog =
        [(fsJoin "dist" (stripQuery "a.js"), 0)]) ∧
    (writeOutFuture "dist" "b.js" ⟨1, [3]⟩ none
        (writeOutFuture "dist" "a.js" ⟨0, [1, 2]⟩ none emitSt0).2).2.writeLog =
      [(fsJoin "dist" (stripQuery "a.js"), 0), (fsJoin "dist" (stripQuery "b.js"), 1)] :=
  claim_C4_writeDedup "dist" "a.js" ⟨0, [1, 2]⟩ "a.js" "b.js" ⟨0, [1, 2]⟩ ⟨1, [3]⟩
    (by decide) (by decide)

/-- The concurrency bound `emitAssets` passes to `asyncLib.forEachLimit`
(line 852). -/
def emitConcurrencyLimit : Nat := 15

/-- Scheduler state of the write phase: assets not yet started, writes
currently in flight, and writes completed. -/
structure LimiterSt where
  pending : Nat
  inFlight : Nat
  finished : Nat
deriving DecidableEq, Repr

/-- Small-step semantics of the `forEachLimit` collaborator as `emitAssets`
invokes it: a queued asset may start only while fewer than
`emitConcurrencyLimit` writes are in flight, and an in-flight write may
complete; there is no step that drops or rejects an asset. -/
inductive LimiterStep : LimiterSt → LimiterSt → Prop
  | start (p f d : Nat) (h : f < emitConcurrencyLimit) :
      LimiterStep ⟨p + 1, f, d⟩ ⟨p, f + 1, d⟩
  | finish (p f d : Nat) :
      LimiterStep ⟨p, f + 1, d⟩ ⟨p, f, d + 1⟩

/-- Reachability in zero or more limiter steps. -/
def LimiterReach : LimiterSt → LimiterSt → Prop :=
  Relation.ReflTransGen LimiterStep

/-- The in-flight count never exceeds the bound along any execution that
respects it initially. -/
theorem limiter_inflight_le {s t : LimiterSt} (h : LimiterReach s t)
    (hs : s.inFlight ≤ emitConcurrencyLimit) : t.inFlight ≤ emitConcurrencyLimit := by
  induction h with
  | refl => exact hs
  | tail _ step ih => cases step <;> simp_all <;> omega

/-- The total number of assets is conserved by every limiter step. -/
theorem limiter_sum_const {s t : LimiterSt} (h : LimiterReach s t) :
    t.pending + t.inFlight + t.finished = s.pending + s.inFlight + s.finished := by
  induction h with
  | refl => rfl
  | tail _ step ih => cases step <;> simp_all <;> omega

/-- All in-flight writes can run to completion. -/
theorem limiter_drain (p f d : Nat) : LimiterReach ⟨p, f, d⟩ ⟨p, 0, d + f⟩ := by
  induction f generalizing d with
  | zero => exact Relation.ReflTransGen.refl
  | succ f ih =>
    have h1 : LimiterStep ⟨p, f + 1, d⟩ ⟨p, f, d + 1⟩ := LimiterStep.finish p f d
    have h2 := ih (d + 1)
    have h3 : LimiterReach ⟨p, f + 1, d⟩ ⟨p, 0, d + 1 + f⟩ := Relation.ReflTransGen.head h1 h2
    have harith : d + 1 + f = d + (f + 1) := by omega
    rwa [harith] at h3

/-- With nothing in flight, every queued asset can still be started and
completed: the bound queues work, it never rejects it. -/
theorem limiter_pump (p d : Nat) : LimiterReach ⟨p, 0, d⟩ ⟨0, 0, d + p⟩ := by
  induction p generalizing d with
  | zero => exact Relation.ReflTransGen.refl
  | succ p ih =>
    have h1 : LimiterStep ⟨p + 1, 0, d⟩ ⟨p, 1, d⟩ := LimiterStep.start p 0 d (by decide)
    have h2 : LimiterStep ⟨p, 1, d⟩ ⟨p, 0, d + 1⟩ := LimiterStep.finish p 0 d
    have h3 := ih (d + 1)
    have h4 : LimiterReach ⟨p + 1, 0, d⟩ ⟨0, 0, d + 1 + p⟩ :=
      Relation.ReflTransGen.head h1 (Relation.ReflTransGen.head h2 h3)
    have harith : d + 1 + p = d + (p + 1) := by omega
    rwa [harith] at h4

/-- C8: starting the write phase of `emitAssets` with `n` assets queued, every
reachable scheduler state has at most 15 writes in flight, and from every
reachable state the run can continue to the state where all `n` assets have
been written — an asset arriving while 15 writes are in flight stays queued and
is eventually written, never rejected because of the bound. -/
theorem claim_C8_boundedConcurrency (n : Nat) (s : LimiterSt)
    (h : LimiterReach ⟨n, 0, 0⟩ s) :
    s.inFlight ≤ emitConcurrencyLimit ∧ LimiterReach s ⟨0, 0, n⟩ := by
  have hsum := limiter_sum_const h
  refine ⟨limiter_inflight_le h (by simp [emitConcurrencyLimit]), ?_⟩
  obtain ⟨p, f, d⟩ := s
  have h1 := (limiter_drain p f d).trans (limiter_pump p (d + f))
  simp only at hsum
  have harith : d + f + p = n := by omega
  rwa [harith] at h1

/-- C8 witness: with two assets queued, the state after starting one write is
reachable, within the bound, and can complete both writes. -/
theorem claim_C8_boundedConcurrency_witness :
    (⟨1, 1, 0⟩ : LimiterSt).inFlight ≤ emitConcurrencyLimit ∧
    LimiterReach ⟨1, 1, 0⟩ ⟨0, 0, 2⟩ :=
  claim_C8_boundedConcurrency 2 ⟨1, 1, 0⟩
    (Relation.ReflTransGen.single (LimiterStep.start 1 0 0 (by decide)))
